import Mathlib

/-!
Shallow embedding of `src/app/page.tsx` (Deaf EQ demo page).

The page holds React state `eqOn`/`isPlaying` and refs `audioContextRef`,
`sourceRef`, `filtersRef`, `bufferRef`. We model these plus a log of the
commands the code issues to the Web Audio subsystem (connect calls,
`setTargetAtTime` gain ramps, source create/start/stop, context resume),
since the audible effects of the code are exactly those commands.
-/

namespace DeafEQ

/-- Chart x-axis labels in EQGraph (page.tsx line 42). -/
def labels : List String := ["60Hz", "150Hz", "250Hz", "1kHz", "4kHz", "15kHz"]

/-- Gain series of the flat curve, EQGraph `flatData` (line 38). -/
def flatData : List Int := [0, 0, 0, 0, 0, 0]

/-- Gain series of the bass-heavy curve, EQGraph `bassHeavyData` (line 39). -/
def bassHeavyData : List Int := [12, 10, 4, -6, -8, -12]

/-- Dataset selection in EQGraph (line 46): `isBassHeavy ? bassHeavyData : flatData`. -/
def chartSeries (isBassHeavy : Bool) : List Int :=
  if isBassHeavy then bassHeavyData else flatData

/-- Gain targets computed by the `eqOn` effect (line 166):
`eqOn ? [12, 10, 4, -6, -8, -12] : [0, 0, 0, 0, 0, 0]`. -/
def effectGains (eqOn : Bool) : List Int :=
  if eqOn then [12, 10, 4, -6, -8, -12] else [0, 0, 0, 0, 0, 0]

/-- Fixed filter centre frequencies in `loadAudio` (line 129). -/
def freqs : List Nat := [60, 150, 250, 1000, 4000, 15000]

/-- One BiquadFilterNode as configured in `loadAudio` (lines 130-137). -/
structure BiquadFilter where
  type : String
  frequency : Nat
  Q : Int
  gain : Int
deriving DecidableEq

/-- Filter construction in `loadAudio` (lines 130-137): type "peaking",
centre frequency `f`, `Q.value = 1`, `gain.value = 0` (start flat). -/
def mkFilter (f : Nat) : BiquadFilter :=
  { type := "peaking", frequency := f, Q := 1, gain := 0 }

/-- Nodes of the audio graph that `connect` calls refer to. -/
inductive AudioNodeRef
  | filter (i : Nat)
  | destination
deriving DecidableEq

/-- One `connect` edge in the audio graph. -/
structure Connection where
  src : AudioNodeRef
  dst : AudioNodeRef
deriving DecidableEq

/-- Edges produced by `filters.reduce((prev, curr) => { prev.connect(curr);
return curr; })` (lines 140-143), over the filter indices: each filter is
connected to the next one. -/
def reduceConnect : List Nat → List Connection
  | [] => []
  | [_] => []
  | a :: b :: rest => ⟨.filter a, .filter b⟩ :: reduceConnect (b :: rest)

/-- One scheduled command on a filter's gain AudioParam. -/
structure GainCommand where
  filterIdx : Nat
  target : Int
  startTime : ℚ
  timeConstant : ℚ
deriving DecidableEq

/-- A gain update issued to the audio subsystem: `setTarget` models
`setTargetAtTime` (an exponential approach toward the target, anchored at
`startTime`, with the given time constant); `jump` models an instantaneous
`gain.value` assignment. The running code only ever issues `setTarget`
updates after construction. -/
inductive GainUpdate
  | setTarget (c : GainCommand)
  | jump (filterIdx : Nat) (value : Int)
deriving DecidableEq

/-- Transport commands issued by `togglePlay`. -/
inductive SessionEvent
  | resumedCtx
  | created (sessionId : Nat) (loop : Bool)
  | connected (sessionId : Nat) (toFilterIdx : Nat)
  | started (sessionId : Nat)
  | stopped (sessionId : Nat)
deriving DecidableEq

/-- State of the page: the refs and React state (lines 94-107), plus logs of
the commands issued to the audio subsystem. `sourceRef` holds the session id
of the AudioBufferSourceNode currently referenced, `nextSessionId` numbers
the sources so that each `createBufferSource` yields a fresh one. -/
structure EngineState where
  hasCtx : Bool
  ctxResumed : Bool
  hasBuffer : Bool
  filters : List BiquadFilter
  connections : List Connection
  sourceRef : Option Nat
  nextSessionId : Nat
  isPlaying : Bool
  eqOn : Bool
  gainLog : List GainUpdate
  sessionLog : List SessionEvent
deriving DecidableEq

/-- Initial state on mount (lines 94-107): all refs null, filter list empty,
not playing, `eqOn` false. -/
def initialState : EngineState :=
  { hasCtx := false, ctxResumed := false, hasBuffer := false, filters := [],
    connections := [], sourceRef := none, nextSessionId := 0,
    isPlaying := false, eqOn := false, gainLog := [], sessionLog := [] }

/-- Successful `loadAudio` (lines 113-145): the context and decoded buffer are
stored, the six peaking filters are built over `freqs`, chained in series by
the `reduce`, and the last filter is connected to `ctx.destination`. -/
def loadAudioSuccess (s : EngineState) : EngineState :=
  { s with hasCtx := true, hasBuffer := true,
           filters := freqs.map mkFilter,
           connections := reduceConnect (List.range freqs.length) ++
             [⟨.filter (freqs.length - 1), .destination⟩] }

/-- `loadAudio` failing at `decodeAudioData` (lines 124, 146-148): the context
was already stored (line 122), but neither the buffer nor the filters were;
the catch block only logs the error. -/
def loadAudioDecodeFailed (s : EngineState) : EngineState :=
  { s with hasCtx := true }

/-- Commands issued by the loop body of the `eqOn` effect (lines 168-171):
for each filter index `i`, `filter.gain.setTargetAtTime(gains[i], now, 0.12)`,
where `now` is the context's current time at the moment of the call. -/
def eqCommands (eqOn : Bool) (numFilters : Nat) (now : ℚ) : List GainUpdate :=
  (List.range numFilters).map
    (fun i => .setTarget ⟨i, (effectGains eqOn).getD i 0, now, 12 / 100⟩)

/-- The `eqOn` effect (lines 162-172): bail out unless the context exists and
the filter list is nonempty; otherwise issue the `setTargetAtTime` commands of
`eqCommands`. -/
def eqEffect (s : EngineState) (now : ℚ) : EngineState :=
  if s.hasCtx && s.filters.length != 0 then
    { s with gainLog := s.gainLog ++ eqCommands s.eqOn s.filters.length now }
  else s

/-- Toggling the EQ switch: `setEqOn` (line 286) stores the new flag and the
`eqOn` effect re-runs; React only re-runs the effect when the stored value
actually changed. -/
def setCurveEnabled (s : EngineState) (enabled : Bool) (now : ℚ) : EngineState :=
  if enabled == s.eqOn then s else eqEffect { s with eqOn := enabled } now

/-- `togglePlay` (lines 175-199), paired with the value the arrow function
returns: both exits return undefined, modelled as `none`. When not playing
(and past the guard) it resumes the context, creates a fresh buffer source
with `loop = true`, connects it to `filters[0]`, starts it, stores it in
`sourceRef` and sets `isPlaying`; when playing it stops the referenced source
(the stop is wrapped in try/catch in the source), clears `sourceRef` and
clears `isPlaying`. -/
def togglePlay (s : EngineState) : EngineState × Option Bool :=
  if !s.hasCtx || !s.hasBuffer || s.filters.length == 0 then (s, none)
  else if s.isPlaying then
    ({ s with
        sessionLog := s.sessionLog ++
          (match s.sourceRef with
           | some sid => [.stopped sid]
           | none => []),
        sourceRef := none, isPlaying := false }, none)
  else
    ({ s with
        ctxResumed := true,
        sessionLog := s.sessionLog ++
          [.resumedCtx, .created s.nextSessionId true,
           .connected s.nextSessionId 0, .started s.nextSessionId],
        sourceRef := some s.nextSessionId,
        nextSessionId := s.nextSessionId + 1,
        isPlaying := true }, none)

/-- The state written by the start branch of `togglePlay` (lines 190-198):
context resumed, a fresh source created with `loop = true`, connected to
`filters[0]`, started, stored in `sourceRef`, engine marked playing. -/
def startPlayback (s : EngineState) : EngineState :=
  { s with
      ctxResumed := true,
      sessionLog := s.sessionLog ++
        [.resumedCtx, .created s.nextSessionId true,
         .connected s.nextSessionId 0, .started s.nextSessionId],
      sourceRef := some s.nextSessionId,
      nextSessionId := s.nextSessionId + 1,
      isPlaying := true }

/-- The state written by the stop branch of `togglePlay` (lines 181-185) when
a source with session id `sid` is held: the source is stopped, the reference
cleared, the engine marked not playing. -/
def stopPlayback (s : EngineState) (sid : Nat) : EngineState :=
  { s with
      sessionLog := s.sessionLog ++ [.stopped sid],
      sourceRef := none,
      isPlaying := false }

/-- Target of the most recent `setTargetAtTime` command issued for filter `i`
in a gain-command log, if any. -/
def lastTargetFor (log : List GainUpdate) (i : Nat) : Option Int :=
  log.reverse.findSome? (fun u => match u with
    | .setTarget c => if c.filterIdx == i then some c.target else none
    | .jump _ _ => none)

/-! Helper lemmas, shared by several of the theorems below. -/

/-- Toggling the curve leaves the context, the filters and everything but
`eqOn` and `gainLog` unchanged, and afterwards the stored flag is the one
requested (when it bails, the flag already had that value). -/
theorem setCurveEnabled_preserves (s : EngineState) (e : Bool) (n : ℚ) :
    (setCurveEnabled s e n).hasCtx = s.hasCtx ∧
    (setCurveEnabled s e n).filters = s.filters ∧
    (setCurveEnabled s e n).eqOn = e := by
  unfold setCurveEnabled
  by_cases h : (e == s.eqOn) = true
  · rw [if_pos h]
    exact ⟨rfl, rfl, (beq_iff_eq.mp h).symm⟩
  · rw [if_neg h]
    unfold eqEffect
    split <;> exact ⟨rfl, rfl, rfl⟩

/-- When the flag actually changes and the chain exists, the toggle appends to
the gain log exactly the `setTargetAtTime` commands for the new flag. -/
theorem setCurveEnabled_gainLog_append (s : EngineState) (enabled : Bool) (now : ℚ)
    (hc : s.hasCtx = true) (hn : s.filters.length ≠ 0) (hch : enabled ≠ s.eqOn) :
    (setCurveEnabled s enabled now).gainLog =
      s.gainLog ++ eqCommands enabled s.filters.length now := by
  have h1 : (enabled == s.eqOn) = false := by simp [hch]
  have h2 : (s.hasCtx && s.filters.length != 0) = true := by simp [hc, hn]
  simp [setCurveEnabled, eqEffect, h1, h2]

/-- The most recent gain target of every filter after appending the flat
retarget commands is 0 dB, whatever was in the log before. -/
theorem lastTargetFor_flat_commands (l : List GainUpdate) (n : ℚ) (i : Nat)
    (hi : i < 6) :
    lastTargetFor (l ++ eqCommands false 6 n) i = some 0 := by
  have hrev : (eqCommands false 6 n).reverse =
      [.setTarget ⟨5, 0, n, 12 / 100⟩, .setTarget ⟨4, 0, n, 12 / 100⟩,
       .setTarget ⟨3, 0, n, 12 / 100⟩, .setTarget ⟨2, 0, n, 12 / 100⟩,
       .setTarget ⟨1, 0, n, 12 / 100⟩, .setTarget ⟨0, 0, n, 12 / 100⟩] := rfl
  unfold lastTargetFor
  rw [List.reverse_append, hrev]
  interval_cases i <;> rfl

/-! Theorems -/

/-- C1: for every `enabled`, the active curve selection is exactly the fixed
constant arrays — flat `[0,0,0,0,0,0]` when disabled, bass-heavy
`[12,10,4,-6,-8,-12]` when enabled — a 6-element series over the fixed
frequencies 60, 150, 250, 1000, 4000, 15000 Hz, and the chart's plotted
series equals the filter gain targets used by the `eqOn` effect. Both
selections are plain functions of `enabled`, hence pure. -/
theorem activeCurve_fixed_and_shared :
    ∀ enabled : Bool,
      chartSeries enabled =
        (if enabled then [12, 10, 4, -6, -8, -12] else [0, 0, 0, 0, 0, 0]) ∧
      effectGains enabled = chartSeries enabled ∧
      (chartSeries enabled).length = 6 ∧
      freqs = [60, 150, 250, 1000, 4000, 15000] ∧
      labels.length = freqs.length := by
  decide

/-- C3: on a successful load, exactly 6 filters are constructed, one per
frequency in 60, 150, 250, 1000, 4000, 15000 Hz, each "peaking" with Q = 1
and its fixed centre frequency, and the connection list is exactly
filter 0 → filter 1 → … → filter 5 → destination, each edge once. -/
theorem loadAudio_builds_chain :
    (loadAudioSuccess initialState).filters =
      [⟨"peaking", 60, 1, 0⟩, ⟨"peaking", 150, 1, 0⟩, ⟨"peaking", 250, 1, 0⟩,
       ⟨"peaking", 1000, 1, 0⟩, ⟨"peaking", 4000, 1, 0⟩, ⟨"peaking", 15000, 1, 0⟩] ∧
    (loadAudioSuccess initialState).connections =
      [⟨.filter 0, .filter 1⟩, ⟨.filter 1, .filter 2⟩, ⟨.filter 2, .filter 3⟩,
       ⟨.filter 3, .filter 4⟩, ⟨.filter 4, .filter 5⟩, ⟨.filter 5, .destination⟩] :=
  ⟨rfl, rfl⟩

/-- C10: at chain construction every filter's gain starts at 0 dB, so the
initial signal path is flat and agrees with the chart's flat series. -/
theorem filters_start_flat :
    ((loadAudioSuccess initialState).filters.map (fun f => f.gain)) = chartSeries false ∧
    ∀ f ∈ (loadAudioSuccess initialState).filters, f.gain = 0 := by
  decide

/-- C2: when the curve-enabled flag changes and the chain is constructed, the
commands issued are exactly one `setTargetAtTime` per filter — an exponential
approach with time constant 0.12, anchored at the moment of the call (`now`,
the context's current time), toward the selected curve's gain for that
filter's position — and every one of them is a `setTarget`, never an
instantaneous `jump`. -/
theorem setCurveEnabled_retargets_exponentially (s : EngineState) (enabled : Bool) (now : ℚ)
    (hc : s.hasCtx = true) (hn : s.filters.length ≠ 0) (hch : enabled ≠ s.eqOn) :
    (setCurveEnabled s enabled now).gainLog =
      s.gainLog ++ eqCommands enabled s.filters.length now ∧
    ∀ u ∈ eqCommands enabled s.filters.length now,
      ∃ c, u = GainUpdate.setTarget c ∧ c.startTime = now ∧
        c.timeConstant = 12 / 100 ∧ c.target = (effectGains enabled).getD c.filterIdx 0 := by
  constructor
  · exact setCurveEnabled_gainLog_append s enabled now hc hn hch
  · intro u hu
    simp only [eqCommands, List.mem_map, List.mem_range] at hu
    obtain ⟨i, _, rfl⟩ := hu
    exact ⟨_, rfl, rfl, rfl, rfl⟩

/-- C2 witness: the theorem applied right after a successful load, enabling
the curve at time 0. -/
theorem setCurveEnabled_retargets_exponentially_witness :
    (setCurveEnabled (loadAudioSuccess initialState) true 0).gainLog =
      (loadAudioSuccess initialState).gainLog ++
        eqCommands true (loadAudioSuccess initialState).filters.length 0 :=
  (setCurveEnabled_retargets_exponentially (loadAudioSuccess initialState) true 0
    rfl (by decide) (by decide)).1

/-- C5: before `load` completes (all refs still null) `togglePlay` leaves the
state untouched and returns undefined, and after a decode failure both
`togglePlay` and the curve toggle are silent no-ops: no session event and no
gain command is ever issued. All the modelled operations are total, and the
one fallible call on these paths (`sourceRef.current?.stop()`) is both behind
the guard and wrapped in try/catch in the source, so no exception escapes. -/
theorem guards_are_silent_noops :
    togglePlay initialState = (initialState, none) ∧
    togglePlay (loadAudioDecodeFailed initialState) =
      (loadAudioDecodeFailed initialState, none) ∧
    ∀ (e : Bool) (n : ℚ),
      (setCurveEnabled (loadAudioDecodeFailed initialState) e n).gainLog = [] ∧
      (setCurveEnabled (loadAudioDecodeFailed initialState) e n).sessionLog = [] := by
  refine ⟨by decide, by decide, ?_⟩
  intro e n
  cases e <;> simp [setCurveEnabled, eqEffect, loadAudioDecodeFailed, initialState]

/-- C8: `togglePlay` never changes which curve is active, never issues a gain
command, and leaves the filters themselves untouched. -/
theorem togglePlay_frame (s : EngineState) :
    (togglePlay s).1.eqOn = s.eqOn ∧
    (togglePlay s).1.gainLog = s.gainLog ∧
    (togglePlay s).1.filters = s.filters := by
  unfold togglePlay
  split
  · exact ⟨rfl, rfl, rfl⟩
  · split <;> exact ⟨rfl, rfl, rfl⟩

/-- C4: enabling then disabling the curve drives every filter's gain target
back to 0 dB — for each of the 6 filters, the most recent retarget command
after the round trip has target 0, the flat curve's value. -/
theorem roundTrip_restores_flat (s : EngineState) (n1 n2 : ℚ)
    (hc : s.hasCtx = true) (hn : s.filters.length = 6) :
    ∀ i < 6,
      lastTargetFor
        ((setCurveEnabled (setCurveEnabled s true n1) false n2).gainLog) i = some 0 := by
  intro i hi
  obtain ⟨p1, p2, p3⟩ := setCurveEnabled_preserves s true n1
  have hlog : (setCurveEnabled (setCurveEnabled s true n1) false n2).gainLog =
      (setCurveEnabled s true n1).gainLog ++
        eqCommands false (setCurveEnabled s true n1).filters.length n2 :=
    setCurveEnabled_gainLog_append _ false n2 (by rw [p1, hc])
      (by rw [p2, hn]; decide) (by rw [p3]; decide)
  rw [hlog, p2, hn]
  exact lastTargetFor_flat_commands _ n2 i hi

/-- C4 witness: the round trip right after a successful load, checked on
filter 2. -/
theorem roundTrip_restores_flat_witness :
    lastTargetFor
      ((setCurveEnabled (setCurveEnabled (loadAudioSuccess initialState) true 0)
        false 1).gainLog) 2 = some 0 :=
  roundTrip_restores_flat (loadAudioSuccess initialState) 0 1 rfl (by decide) 2
    (by decide)

/-- C6: past the guard, `togglePlay` when not playing resumes the context,
issues create (with loop = true) / connect-to-filter-0 / start for a fresh
session id, stores that session and marks the engine playing; when playing it
issues stop for the held session, clears the reference and marks the engine
not playing. The session counter increments on every start, so each start
uses a new, single-use session. -/
theorem togglePlay_transport (s : EngineState)
    (hc : s.hasCtx = true) (hb : s.hasBuffer = true) (hf : s.filters.length ≠ 0) :
    (s.isPlaying = false → (togglePlay s).1 = startPlayback s) ∧
    (∀ sid, s.isPlaying = true → s.sourceRef = some sid →
      (togglePlay s).1 = stopPlayback s sid) := by
  have hguard : (!s.hasCtx || !s.hasBuffer || s.filters.length == 0) = false := by
    simp [hc, hb, hf]
  constructor
  · intro hp
    simp [togglePlay, startPlayback, hguard, hp]
  · intro sid hp hsrc
    simp [togglePlay, stopPlayback, hguard, hp, hsrc]

/-- C6 witness: starting playback right after a successful load creates and
starts session 0 and marks the engine playing. -/
theorem togglePlay_transport_witness :
    (togglePlay (loadAudioSuccess initialState)).1.isPlaying = true ∧
    (togglePlay (loadAudioSuccess initialState)).1.sourceRef = some 0 := by
  have h := (togglePlay_transport (loadAudioSuccess initialState) rfl rfl
    (by decide)).1 rfl
  rw [h]
  exact ⟨rfl, rfl⟩

/-- C7 counterexample: the claim says `togglePlay` returns a boolean equal to
the new `isPlaying` state, but the arrow function returns undefined on both
exits — starting playback from the loaded state yields `isPlaying = true` yet
the returned value is not `some true` (it is `none`). -/
theorem togglePlay_returns_no_boolean :
    ¬ ((togglePlay (loadAudioSuccess initialState)).2 =
        some (togglePlay (loadAudioSuccess initialState)).1.isPlaying) := by
  decide

/-- C7 amended: `togglePlay` returns no value (undefined); the new `isPlaying`
state is recorded in React state instead — true after it starts playback,
false after it stops playback. -/
theorem togglePlay_sets_isPlaying (s : EngineState)
    (hc : s.hasCtx = true) (hb : s.hasBuffer = true) (hf : s.filters.length ≠ 0) :
    (togglePlay s).2 = none ∧ (togglePlay s).1.isPlaying = !s.isPlaying := by
  have hguard : (!s.hasCtx || !s.hasBuffer || s.filters.length == 0) = false := by
    simp [hc, hb, hf]
  cases hp : s.isPlaying <;> simp [togglePlay, hguard, hp]

/-- C7 amended witness: the amended theorem right after a successful load. -/
theorem togglePlay_sets_isPlaying_witness :
    (togglePlay (loadAudioSuccess initialState)).2 = none ∧
    (togglePlay (loadAudioSuccess initialState)).1.isPlaying =
      !(loadAudioSuccess initialState).isPlaying :=
  togglePlay_sets_isPlaying (loadAudioSuccess initialState) rfl rfl (by decide)

/-- C9: if the session reference agrees with `isPlaying` before a
`togglePlay`, it agrees after it (held if and only if playing, and `Option`
holds at most one reference), and when the guard passes the reference is set
exactly on a start (to the fresh session) and cleared exactly on a stop. -/
theorem togglePlay_session_invariant (s : EngineState)
    (h : s.sourceRef.isSome = s.isPlaying) :
    ((togglePlay s).1.sourceRef.isSome = (togglePlay s).1.isPlaying) ∧
    (s.hasCtx = true → s.hasBuffer = true → s.filters.length ≠ 0 →
      (s.isPlaying = false → (togglePlay s).1.sourceRef = some s.nextSessionId) ∧
      (s.isPlaying = true → (togglePlay s).1.sourceRef = none)) := by
  constructor
  · unfold togglePlay
    split
    · exact h
    · split <;> simp
  · intro hc hb hf
    have hguard : (!s.hasCtx || !s.hasBuffer || s.filters.length == 0) = false := by
      simp [hc, hb, hf]
    constructor
    · intro hp; simp [togglePlay, hguard, hp]
    · intro hp; simp [togglePlay, hguard, hp]

/-- C9 witness: the invariant holds across the first `togglePlay` from the
initial (unloaded) state, where neither a session nor playback exists. -/
theorem togglePlay_session_invariant_witness :
    (togglePlay initialState).1.sourceRef.isSome =
      (togglePlay initialState).1.isPlaying :=
  (togglePlay_session_invariant initialState rfl).1

end DeafEQ
